import Mathlib

/-!
Verification of the PESTO PE-hardening scanner (`pesto.py`).

The development shallowly embeds the parts of the program that the
specification talks about:

* `PESecurityCheck` — the per-flag decoding of the 16-bit
  `DllCharacteristics` field (`pesto.py` lines 28-77);
* `get_arch_string` — the machine-code → architecture-label resolver
  (lines 80-88);
* the scan loop of `main` (lines 239-328): candidate filtering,
  lowercasing, hashing, duplicate check, PE parsing, record insertion,
  per-file error logging and progress;
* the aggregation queries (lines 330-411) and the percentage
  computations of `print_statistics` (lines 113-137);
* the CSV/SQL export row formats (lines 438-496).

Machine integers are modelled as `Nat` (the Python ints are unbounded);
SQLite `LIKE` without wildcards is modelled as ASCII-case-insensitive
string equality; fallible steps (file read, PE parse, division) are
modelled with `Option`/`Except`.
-/

namespace Pesto

/-! ## PESecurityCheck: DllCharacteristics bit masks (pesto.py 31-41) -/

def IMAGE_DLLCHARACTERISTICS_HIGH_ENTROPY_VA : Nat := 0x0020
def IMAGE_DLLCHARACTERISTICS_DYNAMIC_BASE : Nat := 0x0040
def IMAGE_DLLCHARACTERISTICS_FORCE_INTEGRITY : Nat := 0x0080
def IMAGE_DLLCHARACTERISTICS_NX_COMPAT : Nat := 0x0100
def IMAGE_DLLCHARACTERISTICS_NO_ISOLATION : Nat := 0x0200
def IMAGE_DLLCHARACTERISTICS_NO_SEH : Nat := 0x0400
def IMAGE_DLLCHARACTERISTICS_NO_BIND : Nat := 0x0800
def IMAGE_DLLCHARACTERISTICS_APPCONTAINER : Nat := 0x1000
def IMAGE_DLLCHARACTERISTICS_WDM_DRIVER : Nat := 0x2000
def IMAGE_DLLCHARACTERISTICS_GUARD_CF : Nat := 0x4000
def IMAGE_DLLCHARACTERISTICS_TERMINAL_SERVER_AWARE : Nat := 0x8000

/-- The 11 boolean mitigation flags decoded from `DllCharacteristics`.
Field names follow the `PESecurityCheck` method names (including the
source's `wmdDriver` spelling); `seh` holds the NO_SEH bit, exactly as
stored by the program. -/
structure MitigationFlags where
  highEntropy : Bool
  aslr : Bool
  forceIntegrity : Bool
  dep : Bool
  noIsolation : Bool
  seh : Bool
  noBind : Bool
  appContainer : Bool
  wmdDriver : Bool
  cfg : Bool
  terminalServerAware : Bool
deriving DecidableEq, Repr

/-- The `PESecurityCheck` methods (pesto.py 46-77), each
`bool(DllCharacteristics & MASK)`, bundled into one record. -/
def decodeMitigations (dllCharacteristics : Nat) : MitigationFlags where
  highEntropy := dllCharacteristics &&& IMAGE_DLLCHARACTERISTICS_HIGH_ENTROPY_VA != 0
  aslr := dllCharacteristics &&& IMAGE_DLLCHARACTERISTICS_DYNAMIC_BASE != 0
  forceIntegrity := dllCharacteristics &&& IMAGE_DLLCHARACTERISTICS_FORCE_INTEGRITY != 0
  dep := dllCharacteristics &&& IMAGE_DLLCHARACTERISTICS_NX_COMPAT != 0
  noIsolation := dllCharacteristics &&& IMAGE_DLLCHARACTERISTICS_NO_ISOLATION != 0
  seh := dllCharacteristics &&& IMAGE_DLLCHARACTERISTICS_NO_SEH != 0
  noBind := dllCharacteristics &&& IMAGE_DLLCHARACTERISTICS_NO_BIND != 0
  appContainer := dllCharacteristics &&& IMAGE_DLLCHARACTERISTICS_APPCONTAINER != 0
  wmdDriver := dllCharacteristics &&& IMAGE_DLLCHARACTERISTICS_WDM_DRIVER != 0
  cfg := dllCharacteristics &&& IMAGE_DLLCHARACTERISTICS_GUARD_CF != 0
  terminalServerAware := dllCharacteristics &&& IMAGE_DLLCHARACTERISTICS_TERMINAL_SERVER_AWARE != 0

/-! ## Architecture resolver (pesto.py 80-88) -/

def get_arch_string (arch : Nat) : String :=
  if arch = 332 then "I386"
  else if arch = 512 then "IA64"
  else if arch = 34404 then "AMD64"
  else "Unknown architecture"

/-! ## Scan model (pesto.py `main`, lines 180-328)

The external collaborators are modelled as data: a `FileEntry` carries
the bytes the `open`/`read` would produce (`none` = read failure), the
header `pefile.PE` would return (`none` = parse failure), and the
wall-clock string `datetime.datetime.now()` would show while the file is
processed.  The SHA-256 collaborator is a parameter `hashFn`. -/

/-- Python's `str.lower()` restricted to ASCII, acting on the character
list of the string (structural, so that concrete runs evaluate). -/
def pyLower (s : String) : String := String.mk (s.data.map Char.toLower)

/-- Python's `s[-n:]`: the last `n` characters (the whole string when it
is shorter). -/
def pyTakeRight (s : String) (n : Nat) : String :=
  String.mk (s.data.drop (s.data.length - n))

/-- Python's `str.endswith`. -/
def pyEndsWith (s suffix : String) : Bool :=
  pyTakeRight s suffix.data.length == suffix

/-- The header fields of a parsed PE image that the program reads. -/
structure PEHeader where
  dllCharacteristics : Nat
  machine : Nat
deriving DecidableEq, Repr

/-- One directory entry encountered by `os.walk`. -/
structure FileEntry where
  folder : String
  name : String
  bytes : Option (List Nat)
  header : Option PEHeader
  obsTime : String
deriving DecidableEq, Repr

/-- One row of the `file_info` table (schema pesto.py 195-214, insert
311-315); boolean flags are stored in the table's column order. -/
structure AnalysisRecord where
  id_analysis : String
  root_folder : String
  file_path : String
  file_name : String
  file_extension : String
  architecture : String
  file_hash : String
  aslr : Bool
  dep : Bool
  seh : Bool
  cfg : Bool
  highEntropy : Bool
  forceIntegrity : Bool
  noIsolation : Bool
  noBind : Bool
  appContainer : Bool
  wmdDriver : Bool
  terminalServerAware : Bool
deriving DecidableEq, Repr

/-- SQLite `LIKE` applied to patterns without wildcard characters:
ASCII-case-insensitive string equality. -/
def likeCI (a b : String) : Bool := pyLower a == pyLower b

/-- A line of the error log file: timestamp, the file path mentioned in
the line, and the fixed message text. -/
structure LogEntry where
  time : String
  path : String
  message : String
deriving DecidableEq, Repr

/-- Mutable state of the scan loop: the `file_info` rows in insertion
order, the log lines, the progress counter, and the number of
`pefile.PE` invocations performed so far. -/
structure ScanState where
  store : List AnalysisRecord
  log : List LogEntry
  progress : Nat
  parses : Nat
deriving DecidableEq, Repr

def initialState : ScanState := ⟨[], [], 0, 0⟩

/-- Candidate filter (pesto.py 243-244 and 260-263): the name is
lowercased, then its suffix checked. -/
def isCandidate (name : String) : Bool :=
  (pyEndsWith (pyLower name) ".exe") || (pyEndsWith (pyLower name) ".dll")

/-- Pre-pass count of candidate files, `num_files_ini` (pesto.py 239-245). -/
def numFilesIni (files : List FileEntry) : Nat :=
  (files.filter (fun e => isCandidate e.name)).length

/-- The record inserted for a newly seen file (pesto.py 294-315):
`filename` is already lowercased, the extension is `filename[-4:]`, the
architecture comes from `get_arch_string`, the flags from
`PESecurityCheck`. -/
def mkRecord (tag rootPath file_path filename hash : String)
    (hd : PEHeader) : AnalysisRecord :=
  let m := decodeMitigations hd.dllCharacteristics
  { id_analysis := tag
    root_folder := rootPath
    file_path := file_path
    file_name := filename
    file_extension := pyTakeRight filename 4
    architecture := get_arch_string hd.machine
    file_hash := hash
    aslr := m.aslr
    dep := m.dep
    seh := m.seh
    cfg := m.cfg
    highEntropy := m.highEntropy
    forceIntegrity := m.forceIntegrity
    noIsolation := m.noIsolation
    noBind := m.noBind
    appContainer := m.appContainer
    wmdDriver := m.wmdDriver
    terminalServerAware := m.terminalServerAware }

/-- Processing of one directory entry (pesto.py 258-328): lowercase the
name, filter by suffix, hash the bytes (logging a read failure), check
the store for an existing row with a `LIKE`-matching hash, and only if
none exists parse the PE image (logging a parse failure) and insert a
row.  The progress counter advances for every candidate regardless of
outcome; non-candidates are untouched. -/
def scanStep (hashFn : List Nat → String) (tag rootPath : String)
    (st : ScanState) (e : FileEntry) : ScanState :=
  if isCandidate e.name then
    let filename := pyLower e.name
    let file_path := e.folder ++ "/" ++ filename
    match e.bytes with
    | none =>
        { st with
          log := st.log ++ [⟨e.obsTime, file_path, "Error calculating file hash: "⟩]
          progress := st.progress + 1 }
    | some b =>
        let h := hashFn b
        if st.store.any (fun r => likeCI r.file_hash h) then
          { st with progress := st.progress + 1 }
        else
          match e.header with
          | none =>
              { st with
                log := st.log ++ [⟨e.obsTime, file_path, "Error in file: "⟩]
                progress := st.progress + 1
                parses := st.parses + 1 }
          | some hd =>
              { st with
                store := st.store ++ [mkRecord tag rootPath file_path filename h hd]
                progress := st.progress + 1
                parses := st.parses + 1 }
  else st

def runScanFiles (hashFn : List Nat → String) (tag rootPath : String)
    (st : ScanState) (files : List FileEntry) : ScanState :=
  files.foldl (scanStep hashFn tag rootPath) st

/-- `main` up to the statistics phase: if the database initialization
fails, `continue_exec` is set to `False` (pesto.py 219-235) and nothing
is scanned; otherwise every file of the walk is processed in order. -/
def runPesto (hashFn : List Nat → String) (tag rootPath : String)
    (initOk : Bool) (files : List FileEntry) : ScanState :=
  if initOk then runScanFiles hashFn tag rootPath initialState files
  else initialState

/-- Classification of what `scanStep` does to one entry, used to relate
the end-of-run counters to the per-file outcomes. -/
inductive FileOutcome where
  | notCandidate
  | hashError
  | duplicate
  | parseError
  | recorded
deriving DecidableEq, Repr

def outcomeOf (hashFn : List Nat → String) (st : ScanState)
    (e : FileEntry) : FileOutcome :=
  if isCandidate e.name then
    match e.bytes with
    | none => .hashError
    | some b =>
        if st.store.any (fun r => likeCI r.file_hash (hashFn b)) then .duplicate
        else
          match e.header with
          | none => .parseError
          | some _ => .recorded
  else .notCandidate

def runOutcomes (hashFn : List Nat → String) (tag rootPath : String)
    (st : ScanState) : List FileEntry → List FileOutcome
  | [] => []
  | e :: es =>
      outcomeOf hashFn st e ::
        runOutcomes hashFn tag rootPath (scanStep hashFn tag rootPath st e) es

/-! ## Aggregation queries (pesto.py 330-411) -/

def numFiles (rs : List AnalysisRecord) : Nat := rs.length

def numExe (rs : List AnalysisRecord) : Nat :=
  (rs.filter (fun r => likeCI r.file_extension ".exe")).length

def numDll (rs : List AnalysisRecord) : Nat :=
  (rs.filter (fun r => likeCI r.file_extension ".dll")).length

def numAslrDisabled (rs : List AnalysisRecord) : Nat :=
  (rs.filter (fun r => !r.aslr)).length

def numDepDisabled (rs : List AnalysisRecord) : Nat :=
  (rs.filter (fun r => !r.dep)).length

def numSehDisabled (rs : List AnalysisRecord) : Nat :=
  (rs.filter (fun r => !r.seh)).length

def numCfgDisabled (rs : List AnalysisRecord) : Nat :=
  (rs.filter (fun r => !r.cfg)).length

def numHighEntropyDisabled (rs : List AnalysisRecord) : Nat :=
  (rs.filter (fun r => !r.highEntropy)).length

def numForceIntegrityDisabled (rs : List AnalysisRecord) : Nat :=
  (rs.filter (fun r => !r.forceIntegrity)).length

def numNoIsolationDisabled (rs : List AnalysisRecord) : Nat :=
  (rs.filter (fun r => !r.noIsolation)).length

def numNoBindDisabled (rs : List AnalysisRecord) : Nat :=
  (rs.filter (fun r => !r.noBind)).length

def numAppContainerDisabled (rs : List AnalysisRecord) : Nat :=
  (rs.filter (fun r => !r.appContainer)).length

def numWdmDriverDisabled (rs : List AnalysisRecord) : Nat :=
  (rs.filter (fun r => !r.wmdDriver)).length

def numTerminalServerAwareDisabled (rs : List AnalysisRecord) : Nat :=
  (rs.filter (fun r => !r.terminalServerAware)).length

def numI386 (rs : List AnalysisRecord) : Nat :=
  (rs.filter (fun r => likeCI r.architecture "I386")).length

def numAmd64 (rs : List AnalysisRecord) : Nat :=
  (rs.filter (fun r => likeCI r.architecture "AMD64")).length

def numIa64 (rs : List AnalysisRecord) : Nat :=
  (rs.filter (fun r => likeCI r.architecture "IA64")).length

def numOtherArch (rs : List AnalysisRecord) : Nat :=
  (rs.filter (fun r =>
    !(likeCI r.architecture "I386") && !(likeCI r.architecture "AMD64") &&
    !(likeCI r.architecture "IA64"))).length

/-- `risk_files` query (pesto.py 408-411): file paths of the rows where
the stored CFG, ASLR, DEP and SEH columns are all 0, in table order. -/
def riskFiles (rs : List AnalysisRecord) : List String :=
  (rs.filter (fun r => !r.cfg && !r.aslr && !r.dep && !r.seh)).map
    (fun r => r.file_path)

/-- The `dict_results` dictionary handed to `print_statistics`. -/
structure DictResults where
  num_files_ini : Nat
  num_files : Nat
  num_exe : Nat
  num_dll : Nat
  num_aslr : Nat
  num_dep : Nat
  num_seh : Nat
  num_cfg : Nat
  num_high_entropy : Nat
  num_force_integrity : Nat
  num_no_isolation : Nat
  num_no_bind : Nat
  num_appcontaier : Nat
  num_wdm_driver : Nat
  num_terminal_server_aware : Nat
  num_i386 : Nat
  num_amd64 : Nat
  num_ia64 : Nat
  num_other_arch : Nat
  risk_files : List String
deriving DecidableEq, Repr

def dictOfStore (num_files_ini : Nat) (rs : List AnalysisRecord) : DictResults :=
  { num_files_ini := num_files_ini
    num_files := numFiles rs
    num_exe := numExe rs
    num_dll := numDll rs
    num_aslr := numAslrDisabled rs
    num_dep := numDepDisabled rs
    num_seh := numSehDisabled rs
    num_cfg := numCfgDisabled rs
    num_high_entropy := numHighEntropyDisabled rs
    num_force_integrity := numForceIntegrityDisabled rs
    num_no_isolation := numNoIsolationDisabled rs
    num_no_bind := numNoBindDisabled rs
    num_appcontaier := numAppContainerDisabled rs
    num_wdm_driver := numWdmDriverDisabled rs
    num_terminal_server_aware := numTerminalServerAwareDisabled rs
    num_i386 := numI386 rs
    num_amd64 := numAmd64 rs
    num_ia64 := numIa64 rs
    num_other_arch := numOtherArch rs
    risk_files := riskFiles rs }

/-- The value printed as `Failed` in the statistics (pesto.py 146). -/
def failedCount (d : DictResults) : Nat := d.num_files_ini - d.num_files

/-! ## print_statistics percentages (pesto.py 113-137)

Python's true division raises `ZeroDivisionError` on a zero denominator;
`pyDiv` models it in `Except`. -/

def pyDiv (a b : Rat) : Except Unit Rat :=
  if b = 0 then Except.error () else Except.ok (a / b)

/-- The eighteen percentage computations of `print_statistics`, in
source order (lines 117-137); any zero denominator aborts the whole
computation exactly as the uncaught `ZeroDivisionError` does. -/
def printStatisticsPercents (d : DictResults) : Except Unit (List Rat) := do
  let pFailed ← pyDiv ((d.num_files_ini : Rat) - (d.num_files : Rat)) (d.num_files_ini : Rat)
  let pExe ← pyDiv (d.num_exe : Rat) (d.num_files : Rat)
  let pDll ← pyDiv (d.num_dll : Rat) (d.num_files : Rat)
  let pI386 ← pyDiv (d.num_i386 : Rat) (d.num_files : Rat)
  let pAmd64 ← pyDiv (d.num_amd64 : Rat) (d.num_files : Rat)
  let pIa64 ← pyDiv (d.num_ia64 : Rat) (d.num_files : Rat)
  let pOther ← pyDiv (d.num_other_arch : Rat) (d.num_files : Rat)
  let pAslr ← pyDiv (d.num_aslr : Rat) (d.num_files : Rat)
  let pDep ← pyDiv (d.num_dep : Rat) (d.num_files : Rat)
  let pSeh ← pyDiv (d.num_seh : Rat) (d.num_files : Rat)
  let pCfg ← pyDiv (d.num_cfg : Rat) (d.num_files : Rat)
  let pHighEntropy ← pyDiv (d.num_high_entropy : Rat) (d.num_files : Rat)
  let pForceIntegrity ← pyDiv (d.num_force_integrity : Rat) (d.num_files : Rat)
  let pNoIsolation ← pyDiv (d.num_no_isolation : Rat) (d.num_files : Rat)
  let pNoBind ← pyDiv (d.num_no_bind : Rat) (d.num_files : Rat)
  let pAppContainer ← pyDiv (d.num_appcontaier : Rat) (d.num_files : Rat)
  let pWdmDriver ← pyDiv (d.num_wdm_driver : Rat) (d.num_files : Rat)
  let pTsa ← pyDiv (d.num_terminal_server_aware : Rat) (d.num_files : Rat)
  return [pFailed * 100, pExe * 100, pDll * 100, pI386 * 100, pAmd64 * 100,
    pIa64 * 100, pOther * 100, pAslr * 100, pDep * 100, pSeh * 100, pCfg * 100,
    pHighEntropy * 100, pForceIntegrity * 100, pNoIsolation * 100, pNoBind * 100,
    pAppContainer * 100, pWdmDriver * 100, pTsa * 100]

/-! ## Export formats (pesto.py 438-496) -/

/-- Python's `"%d" % bool`. -/
def boolToD (b : Bool) : String := if b then "1" else "0"

/-- The 18 columns of the stored `file_info` schema (pesto.py 195-214). -/
def fileInfoColumns : List String :=
  ["id_analysis", "root_folder", "file_path", "file_name", "file_extension",
   "architecture", "file_hash", "ASLR", "DEP", "SEH", "CFG", "HIGH_ENTROPY",
   "FORCE_INTEGRITY", "NO_ISOLATION", "NO_BIND", "APPCONTAINER", "WDM_DRIVER",
   "TERMINAL_SERVER_AWARE"]

/-- The CSV header line written by the export (pesto.py 447-450). -/
def csvHeader : String :=
  "\"id_analysis\",\"root_folder\",\"file_path\",\"file_name\",\"file_extension\",\"architecture\",\"file_hash\",\"ASLR\",\"DEP\",\"SEH\",\"CFG\",\"HIGH_ENTROPY\",\"FORCE_INTEGRITY\",\"NO_ISOLATION\",\"NO_BIND\",\"APPCONTAINER\",\"WDM_DRIVER\",\"TERMINAL_SERVER_AWARE\""

/-- One CSV data line, transcribing the format string of pesto.py 455
verbatim: note the missing opening quote before the fourth field and the
trailing comma after the last one. -/
def csvRow (r : AnalysisRecord) : String :=
  "\n\"" ++ r.id_analysis ++ "\",\"" ++ r.root_folder ++ "\",\"" ++ r.file_path
  ++ "\"," ++ r.file_name ++ "\",\"" ++ r.file_extension ++ "\",\"" ++ r.architecture
  ++ "\",\"" ++ r.file_hash ++ "\",\"" ++ boolToD r.aslr ++ "\",\"" ++ boolToD r.dep
  ++ "\",\"" ++ boolToD r.seh ++ "\",\"" ++ boolToD r.cfg ++ "\",\"" ++ boolToD r.highEntropy
  ++ "\",\"" ++ boolToD r.forceIntegrity ++ "\",\"" ++ boolToD r.noIsolation
  ++ "\",\"" ++ boolToD r.noBind ++ "\",\"" ++ boolToD r.appContainer
  ++ "\",\"" ++ boolToD r.wmdDriver ++ "\",\"" ++ boolToD r.terminalServerAware ++ "\","

/-- The column list named by the SQL-export INSERT statements
(pesto.py 487-488). -/
def sqlExportInsertColumns : List String :=
  ["id_analysis", "root_folder", "file_path", "file_name", "file_extension",
   "architecture", "file_hash", "ASLR", "DEP", "SEH", "CFG"]

/-- The values interpolated into each SQL-export INSERT statement
(pesto.py 489-492): all 18 row fields. -/
def sqlExportRowValues (r : AnalysisRecord) : List String :=
  [r.id_analysis, r.root_folder, r.file_path, r.file_name, r.file_extension,
   r.architecture, r.file_hash, boolToD r.aslr, boolToD r.dep, boolToD r.seh,
   boolToD r.cfg, boolToD r.highEntropy, boolToD r.forceIntegrity,
   boolToD r.noIsolation, boolToD r.noBind, boolToD r.appContainer,
   boolToD r.wmdDriver, boolToD r.terminalServerAware]

/-- A representative stored record, used to evaluate the export formats
on a concrete row. -/
def sampleRecord : AnalysisRecord :=
  { id_analysis := "t"
    root_folder := "r"
    file_path := "r/a.exe"
    file_name := "a.exe"
    file_extension := ".exe"
    architecture := "I386"
    file_hash := "ab12"
    aslr := true
    dep := true
    seh := false
    cfg := false
    highEntropy := false
    forceIntegrity := false
    noIsolation := false
    noBind := false
    appContainer := false
    wmdDriver := false
    terminalServerAware := true }

/-! ## Bit-level helper lemmas -/

lemma bne_zero_iff (n : Nat) : (n != 0) = true ↔ n ≠ 0 := by simp

lemma and_two_pow_bne (m i : Nat) : (m &&& 2 ^ i != 0) = m.testBit i := by
  rw [Nat.and_two_pow]
  cases h : m.testBit i <;> simp [Nat.pos_iff_ne_zero, Nat.pos_pow_of_pos]

lemma flip_bit_preserves (c i j : Nat) (h : 2 ^ j ≠ 2 ^ i) :
    ((c ^^^ 2 ^ j) &&& 2 ^ i != 0) = (c &&& 2 ^ i != 0) := by
  have hij : j ≠ i := fun hji => h (by rw [hji])
  rw [and_two_pow_bne, and_two_pow_bne, Nat.testBit_xor, Nat.testBit_two_pow]
  simp [hij]

lemma decode_flag_flip (c j i : Nat) (f : Nat → Bool)
    (hf : ∀ x, f x = (x &&& 2 ^ i != 0)) (h : 2 ^ j ≠ 2 ^ i) :
    f (c ^^^ 2 ^ j) = f c := by
  rw [hf, hf, flip_bit_preserves c i j h]

/-- C1: each of the 11 mitigation flags decoded by `PESecurityCheck` is
true iff its designated bit mask (0x0020 … 0x8000) is set in the
characteristics input, and flipping any bit whose mask differs from a
flag's mask leaves that flag unchanged. -/
theorem decodeMitigations_bit_contract (c j : Nat) :
    ((decodeMitigations c).highEntropy = true ↔ c &&& 0x0020 ≠ 0)
  ∧ ((decodeMitigations c).aslr = true ↔ c &&& 0x0040 ≠ 0)
  ∧ ((decodeMitigations c).forceIntegrity = true ↔ c &&& 0x0080 ≠ 0)
  ∧ ((decodeMitigations c).dep = true ↔ c &&& 0x0100 ≠ 0)
  ∧ ((decodeMitigations c).noIsolation = true ↔ c &&& 0x0200 ≠ 0)
  ∧ ((decodeMitigations c).seh = true ↔ c &&& 0x0400 ≠ 0)
  ∧ ((decodeMitigations c).noBind = true ↔ c &&& 0x0800 ≠ 0)
  ∧ ((decodeMitigations c).appContainer = true ↔ c &&& 0x1000 ≠ 0)
  ∧ ((decodeMitigations c).wmdDriver = true ↔ c &&& 0x2000 ≠ 0)
  ∧ ((decodeMitigations c).cfg = true ↔ c &&& 0x4000 ≠ 0)
  ∧ ((decodeMitigations c).terminalServerAware = true ↔ c &&& 0x8000 ≠ 0)
  ∧ (2 ^ j ≠ 0x0020 →
      (decodeMitigations (c ^^^ 2 ^ j)).highEntropy = (decodeMitigations c).highEntropy)
  ∧ (2 ^ j ≠ 0x0040 →
      (decodeMitigations (c ^^^ 2 ^ j)).aslr = (decodeMitigations c).aslr)
  ∧ (2 ^ j ≠ 0x0080 →
      (decodeMitigations (c ^^^ 2 ^ j)).forceIntegrity = (decodeMitigations c).forceIntegrity)
  ∧ (2 ^ j ≠ 0x0100 →
      (decodeMitigations (c ^^^ 2 ^ j)).dep = (decodeMitigations c).dep)
  ∧ (2 ^ j ≠ 0x0200 →
      (decodeMitigations (c ^^^ 2 ^ j)).noIsolation = (decodeMitigations c).noIsolation)
  ∧ (2 ^ j ≠ 0x0400 →
      (decodeMitigations (c ^^^ 2 ^ j)).seh = (decodeMitigations c).seh)
  ∧ (2 ^ j ≠ 0x0800 →
      (decodeMitigations (c ^^^ 2 ^ j)).noBind = (decodeMitigations c).noBind)
  ∧ (2 ^ j ≠ 0x1000 →
      (decodeMitigations (c ^^^ 2 ^ j)).appContainer = (decodeMitigations c).appContainer)
  ∧ (2 ^ j ≠ 0x2000 →
      (decodeMitigations (c ^^^ 2 ^ j)).wmdDriver = (decodeMitigations c).wmdDriver)
  ∧ (2 ^ j ≠ 0x4000 →
      (decodeMitigations (c ^^^ 2 ^ j)).cfg = (decodeMitigations c).cfg)
  ∧ (2 ^ j ≠ 0x8000 →
      (decodeMitigations (c ^^^ 2 ^ j)).terminalServerAware = (decodeMitigations c).terminalServerAware) := by
  refine ⟨bne_zero_iff _, bne_zero_iff _, bne_zero_iff _, bne_zero_iff _,
    bne_zero_iff _, bne_zero_iff _, bne_zero_iff _, bne_zero_iff _,
    bne_zero_iff _, bne_zero_iff _, bne_zero_iff _, ?_, ?_, ?_, ?_, ?_, ?_, ?_, ?_, ?_, ?_, ?_⟩
  · exact fun h => decode_flag_flip c j 5 (fun x => (decodeMitigations x).highEntropy) (fun x => rfl) h
  · exact fun h => decode_flag_flip c j 6 (fun x => (decodeMitigations x).aslr) (fun x => rfl) h
  · exact fun h => decode_flag_flip c j 7 (fun x => (decodeMitigations x).forceIntegrity) (fun x => rfl) h
  · exact fun h => decode_flag_flip c j 8 (fun x => (decodeMitigations x).dep) (fun x => rfl) h
  · exact fun h => decode_flag_flip c j 9 (fun x => (decodeMitigations x).noIsolation) (fun x => rfl) h
  · exact fun h => decode_flag_flip c j 10 (fun x => (decodeMitigations x).seh) (fun x => rfl) h
  · exact fun h => decode_flag_flip c j 11 (fun x => (decodeMitigations x).noBind) (fun x => rfl) h
  · exact fun h => decode_flag_flip c j 12 (fun x => (decodeMitigations x).appContainer) (fun x => rfl) h
  · exact fun h => decode_flag_flip c j 13 (fun x => (decodeMitigations x).wmdDriver) (fun x => rfl) h
  · exact fun h => decode_flag_flip c j 14 (fun x => (decodeMitigations x).cfg) (fun x => rfl) h
  · exact fun h => decode_flag_flip c j 15 (fun x => (decodeMitigations x).terminalServerAware) (fun x => rfl) h

/-- Witness for C1 at the concrete characteristics value 0x1234 and bit 0. -/
theorem decodeMitigations_bit_contract_w :
    ((decodeMitigations 0x1234).dep = true ↔ (0x1234 : Nat) &&& 0x0100 ≠ 0)
  ∧ (decodeMitigations (0x1234 ^^^ 2 ^ 0)).highEntropy = (decodeMitigations 0x1234).highEntropy :=
  ⟨(decodeMitigations_bit_contract 0x1234 0).2.2.2.1,
   (decodeMitigations_bit_contract 0x1234 0).2.2.2.2.2.2.2.2.2.2.2.1 (by decide)⟩

/-- C5: `get_arch_string` is total: it returns exactly one of the four
labels for every input, maps 332/512/34404 to I386/IA64/AMD64, and maps
every other code to the Unknown label. -/
theorem get_arch_string_total (a : Nat) :
    (get_arch_string a = "I386" ∨ get_arch_string a = "IA64" ∨
     get_arch_string a = "AMD64" ∨ get_arch_string a = "Unknown architecture")
  ∧ (get_arch_string 332 = "I386" ∧ get_arch_string 512 = "IA64" ∧
     get_arch_string 34404 = "AMD64")
  ∧ (get_arch_string a ≠ "Unknown architecture" ↔ (a = 332 ∨ a = 512 ∨ a = 34404)) := by
  unfold get_arch_string
  refine ⟨?_, ⟨by decide, by decide, by decide⟩, ?_⟩
  · split_ifs <;> simp
  · split_ifs with h1 h2 h3 <;> simp_all

set_option maxRecDepth 10000

/-- C4 (refuting the claimed guard): on an empty run — zero candidate
files, hence zero records — the percentage computations of
`print_statistics` are attempted unguarded and the very first one hits a
zero denominator, so the code raises `ZeroDivisionError` instead of
reporting zero files. -/
theorem printStatistics_empty_run_div_error :
    printStatisticsPercents (dictOfStore 0 []) = Except.error () := rfl

/-- C7 (refuting the round-trip): on a concrete record, the SQL export
INSERT names only 11 columns while supplying 18 values, and the CSV row
carries 18 commas (19 fields, one more than the 17-comma/18-field
header) and only 35 double quotes where a fully quoted row would carry
36 — so neither output parses back into the original 18 fields. -/
theorem export_output_malformed :
    sqlExportInsertColumns.length = 11
  ∧ (sqlExportRowValues sampleRecord).length = 18
  ∧ fileInfoColumns.length = 18
  ∧ (csvRow sampleRecord).data.count ',' = 18
  ∧ csvHeader.data.count ',' = 17
  ∧ (csvRow sampleRecord).data.count '\"' = 35
  ∧ csvHeader.data.count '\"' = 36 := by decide

/-- C3: the risk list contains exactly the file paths of the records
whose stored CFG, ASLR, DEP and SEH columns are all false, and it lists
them in record insertion order (it is a sublist of the paths in table
order). -/
theorem riskFiles_exact (rs : List AnalysisRecord) :
    (∀ s : String, s ∈ riskFiles rs ↔
      ∃ r, r ∈ rs ∧ r.cfg = false ∧ r.aslr = false ∧ r.dep = false ∧
        r.seh = false ∧ r.file_path = s)
  ∧ List.Sublist (riskFiles rs) (rs.map (fun r => r.file_path)) := by
  constructor
  · intro s
    simp only [riskFiles, List.mem_map, List.mem_filter, Bool.and_eq_true,
      Bool.not_eq_true']
    constructor
    · rintro ⟨r, ⟨hr, ⟨⟨hcfg, haslr⟩, hdep⟩, hseh⟩, hpath⟩
      exact ⟨r, hr, hcfg, haslr, hdep, hseh, hpath⟩
    · rintro ⟨r, hr, hcfg, haslr, hdep, hseh, hpath⟩
      exact ⟨r, ⟨hr, ⟨⟨hcfg, haslr⟩, hdep⟩, hseh⟩, hpath⟩
  · exact List.Sublist.map _ (List.filter_sublist _)

lemma arch_category_unique (a : String) :
    (likeCI a "I386").toNat + (likeCI a "AMD64").toNat + (likeCI a "IA64").toNat
      + (!(likeCI a "I386") && !(likeCI a "AMD64") && !(likeCI a "IA64")).toNat = 1 := by
  have h12 : ¬(likeCI a "I386" = true ∧ likeCI a "AMD64" = true) := by
    rintro ⟨h1, h2⟩
    simp only [likeCI, beq_iff_eq] at h1 h2
    exact absurd (h1.symm.trans h2) (by decide)
  have h13 : ¬(likeCI a "I386" = true ∧ likeCI a "IA64" = true) := by
    rintro ⟨h1, h2⟩
    simp only [likeCI, beq_iff_eq] at h1 h2
    exact absurd (h1.symm.trans h2) (by decide)
  have h23 : ¬(likeCI a "AMD64" = true ∧ likeCI a "IA64" = true) := by
    rintro ⟨h1, h2⟩
    simp only [likeCI, beq_iff_eq] at h1 h2
    exact absurd (h1.symm.trans h2) (by decide)
  cases hb1 : likeCI a "I386" <;> cases hb2 : likeCI a "AMD64" <;>
    cases hb3 : likeCI a "IA64" <;> simp_all

/-- C6: the four architecture counts partition the record set — every
record satisfies exactly one of the four selection predicates, and the
four counts sum to the total record count. -/
theorem arch_counts_partition (rs : List AnalysisRecord) :
    (numI386 rs + numAmd64 rs + numIa64 rs + numOtherArch rs = numFiles rs)
  ∧ ∀ r : AnalysisRecord,
      (likeCI r.architecture "I386").toNat + (likeCI r.architecture "AMD64").toNat
        + (likeCI r.architecture "IA64").toNat
        + (!(likeCI r.architecture "I386") && !(likeCI r.architecture "AMD64") &&
            !(likeCI r.architecture "IA64")).toNat = 1 := by
  refine ⟨?_, fun r => arch_category_unique r.architecture⟩
  induction rs with
  | nil => rfl
  | cons r rs ih =>
    have h1 := arch_category_unique r.architecture
    simp only [numI386, numAmd64, numIa64, numOtherArch, numFiles,
      List.filter_cons, List.length_cons] at h1 ih ⊢
    cases hb1 : likeCI r.architecture "I386" <;>
      cases hb2 : likeCI r.architecture "AMD64" <;>
      cases hb3 : likeCI r.architecture "IA64" <;>
      simp_all <;> omega

/-! ## Scan-loop lemmas -/

lemma likeCI_self (a : String) : likeCI a a = true := by simp [likeCI]

section Scan

variable (hashFn : List Nat → String) (tag rootPath : String)

lemma scanStep_not_candidate (st : ScanState) (e : FileEntry)
    (hc : isCandidate e.name = false) : scanStep hashFn tag rootPath st e = st := by
  simp [scanStep, hc]

lemma scanStep_hashError (st : ScanState) (e : FileEntry)
    (hc : isCandidate e.name = true) (hb : e.bytes = none) :
    scanStep hashFn tag rootPath st e =
      { st with
          log := st.log ++ [⟨e.obsTime, e.folder ++ "/" ++ pyLower e.name,
            "Error calculating file hash: "⟩]
          progress := st.progress + 1 } := by
  simp [scanStep, hc, hb]

lemma scanStep_duplicate (st : ScanState) (e : FileEntry) (b : List Nat)
    (hc : isCandidate e.name = true) (hb : e.bytes = some b)
    (hdup : st.store.any (fun r => likeCI r.file_hash (hashFn b)) = true) :
    scanStep hashFn tag rootPath st e = { st with progress := st.progress + 1 } := by
  simp [scanStep, hc, hb, hdup]

lemma scanStep_parseError (st : ScanState) (e : FileEntry) (b : List Nat)
    (hc : isCandidate e.name = true) (hb : e.bytes = some b)
    (hdup : st.store.any (fun r => likeCI r.file_hash (hashFn b)) = false)
    (hh : e.header = none) :
    scanStep hashFn tag rootPath st e =
      { st with
          log := st.log ++ [⟨e.obsTime, e.folder ++ "/" ++ pyLower e.name,
            "Error in file: "⟩]
          progress := st.progress + 1
          parses := st.parses + 1 } := by
  simp [scanStep, hc, hb, hdup, hh]

lemma scanStep_insert (st : ScanState) (e : FileEntry) (b : List Nat) (hd : PEHeader)
    (hc : isCandidate e.name = true) (hb : e.bytes = some b)
    (hdup : st.store.any (fun r => likeCI r.file_hash (hashFn b)) = false)
    (hh : e.header = some hd) :
    scanStep hashFn tag rootPath st e =
      { st with
          store := st.store ++
            [mkRecord tag rootPath (e.folder ++ "/" ++ pyLower e.name)
              (pyLower e.name) (hashFn b) hd]
          progress := st.progress + 1
          parses := st.parses + 1 } := by
  simp [scanStep, hc, hb, hdup, hh]

lemma scanStep_progress (st : ScanState) (e : FileEntry) :
    (scanStep hashFn tag rootPath st e).progress =
      st.progress + (if isCandidate e.name then 1 else 0) := by
  by_cases hc : isCandidate e.name = true
  · rcases hb : e.bytes with _ | b
    · rw [scanStep_hashError hashFn tag rootPath st e hc hb]; simp [hc]
    · rcases hdup : st.store.any (fun r => likeCI r.file_hash (hashFn b)) with _ | _
      · rcases hh : e.header with _ | hd
        · rw [scanStep_parseError hashFn tag rootPath st e b hc hb hdup hh]; simp [hc]
        · rw [scanStep_insert hashFn tag rootPath st e b hd hc hb hdup hh]; simp [hc]
      · rw [scanStep_duplicate hashFn tag rootPath st e b hc hb hdup]; simp [hc]
  · rw [scanStep_not_candidate hashFn tag rootPath st e (by simpa using hc)]
    simp [hc]

lemma runScanFiles_progress (files : List FileEntry) (st : ScanState) :
    (runScanFiles hashFn tag rootPath st files).progress =
      st.progress + numFilesIni files := by
  induction files generalizing st with
  | nil => simp [runScanFiles, numFilesIni]
  | cons e es ih =>
    have hstep := scanStep_progress hashFn tag rootPath st e
    simp only [runScanFiles, List.foldl_cons] at *
    rw [ih, hstep]
    simp only [numFilesIni, List.filter_cons]
    by_cases hc : isCandidate e.name = true <;> simp [hc] <;> omega

/-- No two rows of the store have `LIKE`-matching content digests. -/
def NodupHashes (rs : List AnalysisRecord) : Prop :=
  List.Pairwise (fun r1 r2 => likeCI r1.file_hash r2.file_hash = false) rs

lemma scanStep_nodup (st : ScanState) (e : FileEntry)
    (h : NodupHashes st.store) :
    NodupHashes (scanStep hashFn tag rootPath st e).store := by
  by_cases hc : isCandidate e.name = true
  · rcases hb : e.bytes with _ | b
    · rw [scanStep_hashError hashFn tag rootPath st e hc hb]; exact h
    · rcases hdup : st.store.any (fun r => likeCI r.file_hash (hashFn b)) with _ | _
      · rcases hh : e.header with _ | hd
        · rw [scanStep_parseError hashFn tag rootPath st e b hc hb hdup hh]; exact h
        · rw [scanStep_insert hashFn tag rootPath st e b hd hc hb hdup hh]
          unfold NodupHashes at h ⊢
          rw [List.pairwise_append]
          refine ⟨h, List.pairwise_singleton _ _, ?_⟩
          intro r1 hr1 r2 hr2
          simp only [List.mem_singleton] at hr2
          subst hr2
          have hforall := List.any_eq_false.mp hdup r1 hr1
      -- the inserted record's digest is `hashFn b`, which no prior row matches
          simpa [mkRecord] using hforall
      · rw [scanStep_duplicate hashFn tag rootPath st e b hc hb hdup]; exact h
  · rw [scanStep_not_candidate hashFn tag rootPath st e (by simpa using hc)]; exact h

lemma runScanFiles_nodup (files : List FileEntry) (st : ScanState)
    (h : NodupHashes st.store) :
    NodupHashes (runScanFiles hashFn tag rootPath st files).store := by
  induction files generalizing st with
  | nil => exact h
  | cons e es ih =>
    exact ih _ (scanStep_nodup hashFn tag rootPath st e h)

/-- After a successful insertion for bytes `b`, some row of the store
matches the digest of `b`. -/
lemma store_has_digest_after (st : ScanState) (e : FileEntry) (b : List Nat)
    (hd : PEHeader) (hc : isCandidate e.name = true) (hb : e.bytes = some b)
    (hh : e.header = some hd) :
    (scanStep hashFn tag rootPath st e).store.any
      (fun r => likeCI r.file_hash (hashFn b)) = true := by
  rcases hdup : st.store.any (fun r => likeCI r.file_hash (hashFn b)) with _ | _
  · rw [scanStep_insert hashFn tag rootPath st e b hd hc hb hdup hh]
    simp [mkRecord, likeCI_self]
  · rw [scanStep_duplicate hashFn tag rootPath st e b hc hb hdup]
    exact hdup

/-- C2: the content digest is unique within a run's record set.
Conjunct 1: any full run leaves pairwise `LIKE`-distinct digests in the
store.  Conjunct 2: a candidate whose digest already matches a stored
row is skipped wholesale — the state changes only by the progress
counter, so no record is appended, nothing is logged and the PE header
is not parsed again.  Conjunct 3: after a file with bytes `b` is
recorded, processing any later candidate with the same bytes — even
under a different folder and name — is such a skip. -/
theorem digest_unique_within_run (files : List FileEntry) (st : ScanState)
    (e e2 : FileEntry) (b : List Nat) (hd : PEHeader) :
    NodupHashes (runPesto hashFn tag rootPath true files).store
  ∧ (isCandidate e.name = true → e.bytes = some b →
      st.store.any (fun r => likeCI r.file_hash (hashFn b)) = true →
      scanStep hashFn tag rootPath st e = { st with progress := st.progress + 1 })
  ∧ (isCandidate e.name = true → e.bytes = some b → e.header = some hd →
      isCandidate e2.name = true → e2.bytes = some b →
      scanStep hashFn tag rootPath (scanStep hashFn tag rootPath st e) e2 =
        { scanStep hashFn tag rootPath st e with
            progress := (scanStep hashFn tag rootPath st e).progress + 1 }) := by
  refine ⟨?_, ?_, ?_⟩
  · exact runScanFiles_nodup hashFn tag rootPath files initialState List.Pairwise.nil
  · intro hc hb hdup
    exact scanStep_duplicate hashFn tag rootPath st e b hc hb hdup
  · intro hc hb hh hc2 hb2
    exact scanStep_duplicate hashFn tag rootPath _ e2 b hc2 hb2
      (store_has_digest_after hashFn tag rootPath st e b hd hc hb hh)

/-- C8: error isolation.  Conjunct 1: when store initialization fails
the run aborts before any scanning (initial state, nothing processed).
Conjunct 2: a candidate whose bytes cannot be read only appends one log
line carrying the timestamp and file path and advances progress — no
record, no parse.  Conjunct 3: likewise for a candidate that fails PE
parsing.  Conjunct 4: processing a batch decomposes file by file, so no
per-file outcome stops the remaining files.  Conjunct 5: progress
advances by exactly the number of candidates regardless of outcomes. -/
theorem per_file_error_isolation (files xs ys : List FileEntry)
    (st : ScanState) (e : FileEntry) (b : List Nat) :
    runPesto hashFn tag rootPath false files = initialState
  ∧ (isCandidate e.name = true → e.bytes = none →
      scanStep hashFn tag rootPath st e =
        { st with
            log := st.log ++ [⟨e.obsTime, e.folder ++ "/" ++ pyLower e.name,
              "Error calculating file hash: "⟩]
            progress := st.progress + 1 })
  ∧ (isCandidate e.name = true → e.bytes = some b →
      st.store.any (fun r => likeCI r.file_hash (hashFn b)) = false →
      e.header = none →
      scanStep hashFn tag rootPath st e =
        { st with
            log := st.log ++ [⟨e.obsTime, e.folder ++ "/" ++ pyLower e.name,
              "Error in file: "⟩]
            progress := st.progress + 1
            parses := st.parses + 1 })
  ∧ runScanFiles hashFn tag rootPath st (xs ++ ys) =
      runScanFiles hashFn tag rootPath (runScanFiles hashFn tag rootPath st xs) ys
  ∧ (runScanFiles hashFn tag rootPath st ys).progress =
      st.progress + numFilesIni ys := by
  refine ⟨by simp [runPesto], ?_, ?_, ?_, runScanFiles_progress hashFn tag rootPath ys st⟩
  · intro hc hb
    exact scanStep_hashError hashFn tag rootPath st e hc hb
  · intro hc hb hdup hh
    exact scanStep_parseError hashFn tag rootPath st e b hc hb hdup hh
  · simp [runScanFiles, List.foldl_append]

/-- Outcomes that produce no record for a candidate file: read failure,
duplicate skip, parse failure. -/
def isFailOutcome : FileOutcome → Bool
  | .hashError => true
  | .duplicate => true
  | .parseError => true
  | _ => false

lemma outcomeOf_notCandidate_iff (st : ScanState) (e : FileEntry) :
    outcomeOf hashFn st e = FileOutcome.notCandidate ↔
      isCandidate e.name = false := by
  unfold outcomeOf
  by_cases hc : isCandidate e.name = true
  · rcases hb : e.bytes with _ | b
    · simp [hc, hb]
    · rcases hdup : st.store.any (fun r => likeCI r.file_hash (hashFn b)) with _ | _
      · rcases hh : e.header with _ | hd <;> simp [hc, hb, hdup, hh]
      · simp [hc, hb, hdup]
  · simp [Bool.not_eq_true] at hc
    simp [hc]

lemma scanStep_store_len (st : ScanState) (e : FileEntry) :
    (scanStep hashFn tag rootPath st e).store.length =
      st.store.length +
        (if outcomeOf hashFn st e = FileOutcome.recorded then 1 else 0) := by
  by_cases hc : isCandidate e.name = true
  · rcases hb : e.bytes with _ | b
    · rw [scanStep_hashError hashFn tag rootPath st e hc hb]
      simp [outcomeOf, hc, hb]
    · rcases hdup : st.store.any (fun r => likeCI r.file_hash (hashFn b)) with _ | _
      · rcases hh : e.header with _ | hd
        · rw [scanStep_parseError hashFn tag rootPath st e b hc hb hdup hh]
          simp [outcomeOf, hc, hb, hdup, hh]
        · rw [scanStep_insert hashFn tag rootPath st e b hd hc hb hdup hh]
          simp [outcomeOf, hc, hb, hdup, hh]
      · rw [scanStep_duplicate hashFn tag rootPath st e b hc hb hdup]
        simp [outcomeOf, hc, hb, hdup]
  · have hc' : isCandidate e.name = false := by simpa using hc
    rw [scanStep_not_candidate hashFn tag rootPath st e hc']
    simp [outcomeOf, hc']

lemma run_accounting (files : List FileEntry) (st : ScanState) :
    numFilesIni files + st.store.length =
      (runScanFiles hashFn tag rootPath st files).store.length +
        ((runOutcomes hashFn tag rootPath st files).filter isFailOutcome).length := by
  induction files generalizing st with
  | nil => simp [runScanFiles, numFilesIni, runOutcomes]
  | cons e es ih =>
    have hni : numFilesIni (e :: es) =
        (if isCandidate e.name then 1 else 0) + numFilesIni es := by
      simp only [numFilesIni, List.filter_cons]
      split <;> simp [Nat.add_comm]
    have hrw : runScanFiles hashFn tag rootPath st (e :: es) =
        runScanFiles hashFn tag rootPath (scanStep hashFn tag rootPath st e) es := rfl
    have hro : runOutcomes hashFn tag rootPath st (e :: es) =
        outcomeOf hashFn st e ::
          runOutcomes hashFn tag rootPath (scanStep hashFn tag rootPath st e) es := rfl
    have hih := ih (scanStep hashFn tag rootPath st e)
    have hlen := scanStep_store_len hashFn tag rootPath st e
    have hnc := outcomeOf_notCandidate_iff hashFn st e
    rw [hni, hrw, hro, List.filter_cons]
    rcases houtc : outcomeOf hashFn st e with _ | _ | _ | _ | _ <;>
      rw [houtc] at hlen hnc
    · have hcc : isCandidate e.name = false := hnc.mp rfl
      simp [isFailOutcome, hcc]
      simp at hlen
      omega
    · have hcand : isCandidate e.name = true := by
        rcases hcc : isCandidate e.name with _ | _
        · exact absurd (hnc.mpr hcc) (by simp)
        · rfl
      simp [isFailOutcome, hcand]
      simp at hlen
      omega
    · have hcand : isCandidate e.name = true := by
        rcases hcc : isCandidate e.name with _ | _
        · exact absurd (hnc.mpr hcc) (by simp)
        · rfl
      simp [isFailOutcome, hcand]
      simp at hlen
      omega
    · have hcand : isCandidate e.name = true := by
        rcases hcc : isCandidate e.name with _ | _
        · exact absurd (hnc.mpr hcc) (by simp)
        · rfl
      simp [isFailOutcome, hcand]
      simp at hlen
      omega
    · have hcand : isCandidate e.name = true := by
        rcases hcc : isCandidate e.name with _ | _
        · exact absurd (hnc.mpr hcc) (by simp)
        · rfl
      simp [isFailOutcome, hcand]
      simp at hlen
      omega

lemma filter_length_mono {α : Type} (p q : α → Bool) (l : List α)
    (h : ∀ a, p a = true → q a = true) :
    (l.filter p).length ≤ (l.filter q).length := by
  induction l with
  | nil => simp
  | cons a l ih =>
    rcases hp : p a with _ | _
    · rcases hq : q a with _ | _
      · simp only [List.filter_cons, hp, hq, Bool.false_eq_true, if_false]
        exact ih
      · simp only [List.filter_cons, hp, hq, Bool.false_eq_true, if_false,
          if_true, List.length_cons]
        omega
    · have hq := h a hp
      simp only [List.filter_cons, hp, hq, if_true, List.length_cons]
      omega

/-- C9: the `Failed` figure printed by `print_statistics` is
`num_files_ini - num_files`, which equals the number of candidate files
that produced no record — read failures, duplicate skips and parse
failures together — so every skipped duplicate is counted as failed. -/
theorem failed_count_counts_duplicates (files : List FileEntry) :
    failedCount (dictOfStore (numFilesIni files)
        (runPesto hashFn tag rootPath true files).store) =
      ((runOutcomes hashFn tag rootPath initialState files).filter isFailOutcome).length
  ∧ ((runOutcomes hashFn tag rootPath initialState files).filter
        (fun o => decide (o = FileOutcome.duplicate))).length ≤
      failedCount (dictOfStore (numFilesIni files)
        (runPesto hashFn tag rootPath true files).store) := by
  have hacc := run_accounting hashFn tag rootPath files initialState
  have hrun : runPesto hashFn tag rootPath true files =
      runScanFiles hashFn tag rootPath initialState files := by simp [runPesto]
  simp only [initialState, List.length_nil] at hacc
  have h1 : failedCount (dictOfStore (numFilesIni files)
      (runPesto hashFn tag rootPath true files).store) =
      ((runOutcomes hashFn tag rootPath initialState files).filter isFailOutcome).length := by
    rw [hrun]
    simp only [failedCount, dictOfStore, numFiles, initialState]
    omega
  refine ⟨h1, ?_⟩
  rw [h1]
  refine filter_length_mono _ _ _ (fun o ho => ?_)
  have hdup := of_decide_eq_true ho
  subst hdup
  rfl

/-! ## Lowercasing (pesto.py 243, 260: `filename = filename.lower()`) -/

/-- An ASCII uppercase letter. -/
def isAsciiUpper (c : Char) : Bool := decide (65 ≤ c.toNat ∧ c.toNat ≤ 90)

lemma toNat_ofNat_valid (n : Nat) (h : n.isValidChar) :
    (Char.ofNat n).toNat = n := by
  unfold Char.ofNat
  rw [dif_pos h]
  rfl

lemma toLower_not_upper (c : Char) : isAsciiUpper c.toLower = false := by
  have hdef : c.toLower =
      if c.toNat ≥ 65 ∧ c.toNat ≤ 90 then Char.ofNat (c.toNat + 32) else c := rfl
  rw [hdef]
  by_cases h : c.toNat ≥ 65 ∧ c.toNat ≤ 90
  · rw [if_pos h]
    have hv : (c.toNat + 32).isValidChar := Or.inl (by omega)
    have ht := toNat_ofNat_valid (c.toNat + 32) hv
    simp only [isAsciiUpper, ht, decide_eq_false_iff_not]
    omega
  · rw [if_neg h]
    simp only [isAsciiUpper, decide_eq_false_iff_not]
    omega

lemma pyLower_no_upper (s : String) :
    (pyLower s).data.all (fun c => !(isAsciiUpper c)) = true := by
  have h : ∀ x ∈ s.data.map Char.toLower, (!(isAsciiUpper x)) = true := by
    intro x hx
    rcases List.mem_map.mp hx with ⟨c, _, rfl⟩
    simp [toLower_not_upper]
  exact List.all_eq_true.mpr h

lemma mem_store_scanStep (st : ScanState) (e : FileEntry) (r : AnalysisRecord)
    (hr : r ∈ (scanStep hashFn tag rootPath st e).store) :
    r ∈ st.store ∨
      (isCandidate e.name = true ∧ ∃ b hd, e.bytes = some b ∧ e.header = some hd ∧
        r = mkRecord tag rootPath (e.folder ++ "/" ++ pyLower e.name)
              (pyLower e.name) (hashFn b) hd) := by
  by_cases hc : isCandidate e.name = true
  · rcases hb : e.bytes with _ | b
    · rw [scanStep_hashError hashFn tag rootPath st e hc hb] at hr
      exact Or.inl hr
    · rcases hdup : st.store.any (fun x => likeCI x.file_hash (hashFn b)) with _ | _
      · rcases hh : e.header with _ | hd
        · rw [scanStep_parseError hashFn tag rootPath st e b hc hb hdup hh] at hr
          exact Or.inl hr
        · rw [scanStep_insert hashFn tag rootPath st e b hd hc hb hdup hh] at hr
          rcases List.mem_append.mp hr with h | h
          · exact Or.inl h
          · exact Or.inr ⟨hc, b, hd, rfl, rfl, by simpa using h⟩
      · rw [scanStep_duplicate hashFn tag rootPath st e b hc hb hdup] at hr
        exact Or.inl hr
  · rw [scanStep_not_candidate hashFn tag rootPath st e (by simpa using hc)] at hr
    exact Or.inl hr

lemma mem_store_run (files : List FileEntry) (st : ScanState) (r : AnalysisRecord)
    (hr : r ∈ (runScanFiles hashFn tag rootPath st files).store) :
    r ∈ st.store ∨
      ∃ e, e ∈ files ∧ isCandidate e.name = true ∧
        ∃ b hd, e.bytes = some b ∧ e.header = some hd ∧
          r = mkRecord tag rootPath (e.folder ++ "/" ++ pyLower e.name)
                (pyLower e.name) (hashFn b) hd := by
  induction files generalizing st with
  | nil => exact Or.inl hr
  | cons e es ih =>
    rcases ih (scanStep hashFn tag rootPath st e) hr with h | ⟨e2, he2, rest⟩
    · rcases mem_store_scanStep hashFn tag rootPath st e r h with h2 | ⟨hc, rest⟩
      · exact Or.inl h2
      · exact Or.inr ⟨e, List.mem_cons_self e es, hc, rest⟩
    · exact Or.inr ⟨e2, List.mem_cons_of_mem e he2, rest⟩

/-- C10: every record of a run is built from the lowercased on-disk
name: its stored name is `name.lower()`, its path is the folder joined
with the lowercased name, its extension is the last four characters of
the lowercased name — hence name and extension (the path's final
component) contain no ASCII uppercase letter even when the on-disk name
does. -/
theorem record_built_from_lowered_name (files : List FileEntry)
    (r : AnalysisRecord)
    (hr : r ∈ (runPesto hashFn tag rootPath true files).store) :
    (∃ e, e ∈ files ∧ isCandidate e.name = true ∧
        r.file_name = pyLower e.name ∧
        r.file_path = e.folder ++ "/" ++ pyLower e.name ∧
        r.file_extension = pyTakeRight (pyLower e.name) 4)
  ∧ r.file_name.data.all (fun c => !(isAsciiUpper c)) = true
  ∧ r.file_extension.data.all (fun c => !(isAsciiUpper c)) = true := by
  have hrun : runPesto hashFn tag rootPath true files =
      runScanFiles hashFn tag rootPath initialState files := by simp [runPesto]
  rw [hrun] at hr
  rcases mem_store_run hashFn tag rootPath files initialState r hr with
    h | ⟨e, he, hc, b, hd, hb, hh, rfl⟩
  · simp [initialState] at h
  · refine ⟨⟨e, he, hc, rfl, rfl, rfl⟩, pyLower_no_upper e.name, ?_⟩
    have hall := pyLower_no_upper e.name
    rw [List.all_eq_true] at hall ⊢
    intro x hx
    exact hall x (List.mem_of_mem_drop hx)

end Scan

/-! ## Concrete witnesses -/

def wHashFn (b : List Nat) : String :=
  String.mk (b.map fun n => Char.ofNat (48 + n % 10))

def entryA : FileEntry :=
  { folder := "c:/bin", name := "Setup.EXE", bytes := some [1, 2, 3],
    header := some ⟨0x0140, 332⟩, obsTime := "t1" }

def entryB : FileEntry :=
  { folder := "d:/other", name := "COPY.exe", bytes := some [1, 2, 3],
    header := some ⟨0, 0⟩, obsTime := "t2" }

def entryBad : FileEntry :=
  { folder := "c:/bin", name := "Broken.DLL", bytes := none,
    header := none, obsTime := "t3" }

def recA : AnalysisRecord :=
  mkRecord "tag" "c:/bin" "c:/bin/setup.exe" "setup.exe" (wHashFn [1, 2, 3])
    ⟨0x0140, 332⟩

/-- Witness for C2: a second file with the same bytes at another path is
skipped — the state is unchanged except for the progress counter. -/
theorem digest_unique_within_run_w :
    scanStep wHashFn "tag" "c:/bin"
        (scanStep wHashFn "tag" "c:/bin" initialState entryA) entryB =
      { scanStep wHashFn "tag" "c:/bin" initialState entryA with
          progress := (scanStep wHashFn "tag" "c:/bin" initialState entryA).progress + 1 } :=
  (digest_unique_within_run wHashFn "tag" "c:/bin" [] initialState entryA entryB
      [1, 2, 3] ⟨0x0140, 332⟩).2.2
    (by decide) (by decide) (by decide) (by decide) (by decide)

/-- Witness for C8: a concrete unreadable candidate is logged with its
timestamp and path, produces no record, and advances progress. -/
theorem per_file_error_isolation_w :
    scanStep wHashFn "tag" "c:/bin" initialState entryBad =
      { initialState with
          log := initialState.log ++ [⟨entryBad.obsTime,
            entryBad.folder ++ "/" ++ pyLower entryBad.name,
            "Error calculating file hash: "⟩]
          progress := initialState.progress + 1 } :=
  (per_file_error_isolation wHashFn "tag" "c:/bin" [] [] [] initialState entryBad
      []).2.1 (by decide) (by decide)

/-- A stored row with none of the four guards set, for concrete
evaluation of the risk list. -/
def riskRec : AnalysisRecord :=
  { sampleRecord with aslr := false, dep := false, file_path := "r/b.exe" }

/-- Witness for C3 at a concrete one-row store. -/
theorem riskFiles_exact_w :
    "r/b.exe" ∈ riskFiles [riskRec] ↔
      ∃ r, r ∈ [riskRec] ∧ r.cfg = false ∧ r.aslr = false ∧ r.dep = false ∧
        r.seh = false ∧ r.file_path = "r/b.exe" :=
  (riskFiles_exact [riskRec]).1 "r/b.exe"

/-- Witness for C5 at the concrete unknown machine code 700. -/
theorem get_arch_string_total_w :
    (get_arch_string 700 = "I386" ∨ get_arch_string 700 = "IA64" ∨
     get_arch_string 700 = "AMD64" ∨ get_arch_string 700 = "Unknown architecture")
  ∧ (get_arch_string 332 = "I386" ∧ get_arch_string 512 = "IA64" ∧
     get_arch_string 34404 = "AMD64")
  ∧ (get_arch_string 700 ≠ "Unknown architecture" ↔
      (700 = 332 ∨ 700 = 512 ∨ 700 = 34404)) :=
  get_arch_string_total 700

/-- Witness for C6 at a concrete two-row store. -/
theorem arch_counts_partition_w :
    numI386 [sampleRecord, riskRec] + numAmd64 [sampleRecord, riskRec] +
      numIa64 [sampleRecord, riskRec] + numOtherArch [sampleRecord, riskRec] =
      numFiles [sampleRecord, riskRec] :=
  (arch_counts_partition [sampleRecord, riskRec]).1

/-- Witness for C9 at a concrete run containing one good file, one
byte-identical duplicate and one unreadable file: Failed counts 2. -/
theorem failed_count_counts_duplicates_w :
    failedCount (dictOfStore (numFilesIni [entryA, entryB, entryBad])
        (runPesto wHashFn "tag" "c:/bin" true [entryA, entryB, entryBad]).store) =
      ((runOutcomes wHashFn "tag" "c:/bin" initialState
          [entryA, entryB, entryBad]).filter isFailOutcome).length :=
  (failed_count_counts_duplicates wHashFn "tag" "c:/bin"
    [entryA, entryB, entryBad]).1

/-- Witness for C10 at a concrete run over one file with an uppercase
on-disk name. -/
theorem record_built_from_lowered_name_w :
    (∃ e, e ∈ [entryA] ∧ isCandidate e.name = true ∧
        recA.file_name = pyLower e.name ∧
        recA.file_path = e.folder ++ "/" ++ pyLower e.name ∧
        recA.file_extension = pyTakeRight (pyLower e.name) 4)
  ∧ recA.file_name.data.all (fun c => !(isAsciiUpper c)) = true
  ∧ recA.file_extension.data.all (fun c => !(isAsciiUpper c)) = true :=
  record_built_from_lowered_name wHashFn "tag" "c:/bin" [entryA] recA (by decide)

end Pesto
